import Mathlib

/-!
# Verification of the memento experiment-orchestrator core

Shallow embedding of the task-execution and caching core of the memento
repository, together with theorems settling the specification claims.

Conventions used throughout:
* Python values appearing as parameter values, cached values and task results
  are modelled by the inductive `Val`.  Python's `False` singleton is
  `Val.vBool false`; identity (`is`) on it coincides with structural equality
  on `Val` because `False` is a unique interned object.
* A Python `dict` is modelled as an association list with unique keys where
  `dictSet` replaces in place and `dictGet?` looks a key up.
* Serialized cache keys (`cloudpickle.dumps` of a dict holding the callable
  and the arguments) are modelled by the pair of a function identity and the
  argument list: `cloudpickle.dumps` is deterministic on structurally equal
  inputs, so two structurally equal (callable, args) pairs map to the same
  key, which is the only property of the serialization the code relies on.
-/

set_option autoImplicit false

namespace Memento

/-- Model of a Python value stored in configurations, caches and results. -/
inductive Val where
  | vBool (b : Bool)
  | vInt (n : Int)
  | vStr (s : String)
  | vNone
  deriving DecidableEq, Repr

/-- Python `dict` update `d[k] = v`: replace the binding if the key is
present, append it otherwise. -/
def dictSet {K V : Type} [DecidableEq K] : List (K × V) → K → V → List (K × V)
  | [], k, v => [(k, v)]
  | (k', v') :: rest, k, v =>
    if k' = k then (k, v) :: rest else (k', v') :: dictSet rest k v

/-- Python `dict` lookup `d[k]`, returning `none` where Python raises
`KeyError`. -/
def dictGet? {K V : Type} [DecidableEq K] : List (K × V) → K → Option V
  | [], _ => none
  | (k', v') :: rest, k => if k' = k then some v' else dictGet? rest k

theorem dictGet?_dictSet_self {K V : Type} [DecidableEq K]
    (d : List (K × V)) (k : K) (v : V) : dictGet? (dictSet d k v) k = some v := by
  induction d with
  | nil => simp [dictSet, dictGet?]
  | cons hd tl ih =>
    obtain ⟨k', v'⟩ := hd
    by_cases h : k' = k <;> simp [dictSet, dictGet?, h, ih]

/-- A serialized cache key: `cloudpickle.dumps({"function": f, "args": args,
"kwargs": kwargs})` from `MemoryCacheProvider.make_key`, modelled as the
function identity paired with the (positional) argument list. -/
structure PyKey where
  func : Nat
  args : List Val
  deriving DecidableEq, Repr

/-- The in-memory cache provider's underlying `dict` (`self._cache`). -/
abbrev MemCache := List (PyKey × Val)

/-- `MemoryCacheProvider.get`: `self._cache[key]`, raising `KeyError`
(modelled as `Except.error ()`) when the key is absent. -/
def memoryGet (cache : MemCache) (key : PyKey) : Except Unit Val :=
  match dictGet? cache key with
  | some v => Except.ok v
  | none => Except.error ()

/-- `MemoryCacheProvider.set`: `self._cache[key] = item`. -/
def memorySet (cache : MemCache) (key : PyKey) (item : Val) : MemCache :=
  dictSet cache key item

/-- `MemoryCacheProvider.contains`:
`self._cache.get(key, False) is not False`.  `is` against the interned
`False` singleton holds exactly for the boolean value `False`, i.e. for
`Val.vBool false`. -/
def memoryContains (cache : MemCache) (key : PyKey) : Bool :=
  decide (((dictGet? cache key).getD (Val.vBool false)) ≠ Val.vBool false)

/-! ## The `Cache` higher-order function (caching.py, `Cache.__call__`) -/

/-- A pluggable cache provider in the sense of the `CacheProvider` abstract
base class: a state type with `get`/`set` operations.  `get?` returns `none`
where the Python provider raises `KeyError`. -/
structure ProviderModel (S : Type) where
  get? : S → PyKey → Option Val
  set : S → PyKey → Val → S

/-- The provider contract: after `set(key, value)`, `get(key)` succeeds and
returns that value (both backends implement upsert-then-read semantics). -/
def ProviderModel.PreservesSet {S : Type} (P : ProviderModel S) : Prop :=
  ∀ s k v, P.get? (P.set s k v) k = some v

/-- The in-memory provider as a `ProviderModel`. -/
def memProvider : ProviderModel MemCache :=
  ⟨dictGet?, dictSet⟩

theorem memProvider_preservesSet : memProvider.PreservesSet := by
  intro s k v
  exact dictGet?_dictSet_self s k v

/-- A `Cache` object: the wrapped function's identity (entering the key) and
its behaviour on an argument list. -/
structure CacheFn where
  funcId : Nat
  impl : List Val → Val

/-- `self._cache_provider.make_key(self, self._func, *args, **kwargs)`:
deterministic serialization of the callable identity and the arguments. -/
def CacheFn.makeKey (c : CacheFn) (args : List Val) : PyKey :=
  ⟨c.funcId, args⟩

/-- `Cache.__call__`: compute the key, try `get`, on `KeyError` execute the
underlying function and `set` the result.  Returns the value, the provider
state after the call, and whether the underlying function was executed. -/
def CacheFn.call {S : Type} (c : CacheFn) (P : ProviderModel S) (s : S)
    (args : List Val) : Val × S × Bool :=
  match P.get? s (c.makeKey args) with
  | some v => (v, s, false)
  | none => (c.impl args, P.set s (c.makeKey args) (c.impl args), true)

/-! ## Configuration generation (configurations.py, `run`) -/

/-- A generated configuration: the `Config._dict` mapping of parameter name
to value, in declaration order. -/
abbrev Config3 := List (String × Val)

/-- `itertools.product(*value_lists)`: the first list varies slowest, the
last fastest. -/
def cartProd : List (List Val) → List (List Val)
  | [] => [[]]
  | vs :: rest => vs.flatMap (fun v => (cartProd rest).map (fun tail => v :: tail))

/-- One exclude entry: a partial mapping of parameter names to values. -/
abbrev ExEntry := List (String × Val)

/-- `all(getattr(config, k, _Never) == v for k, v in ex.items())`.
`Config.__getattr__` does `self._dict[name]`, which raises `KeyError` (not
`AttributeError`) on an absent parameter, so `getattr`'s default is never
used and the lookup on an absent key propagates `KeyError`
(`Except.error ()`).  `all` is lazy: a mismatch stops evaluation before any
later key is looked up. -/
def exMatches (ex : ExEntry) (cfg : Config3) : Except Unit Bool :=
  match ex with
  | [] => Except.ok true
  | (k, v) :: rest =>
    match dictGet? cfg k with
    | none => Except.error ()
    | some w => if w = v then exMatches rest cfg else Except.ok false

/-- The exclusion loop
`for i, config in enumerate(configurations): if <match>: del configurations[i]`.
Python's list iterator advances its position after every step even when the
body deleted the element at the current position, so the element that slid
into the deleted slot is never examined.  The state is split as
(elements already passed over, elements not yet reached): on a match the
current element is dropped and the next element (if any) is passed over
unexamined; on a mismatch the current element is passed over. -/
def excludeScan (ex : ExEntry) : List Config3 → List Config3 → Except Unit (List Config3)
  | done, [] => Except.ok done
  | done, c :: rest =>
    match exMatches ex c with
    | Except.error e => Except.error e
    | Except.ok true =>
      match rest with
      | [] => Except.ok done
      | c2 :: rest2 => excludeScan ex (done ++ [c2]) rest2
    | Except.ok false => excludeScan ex (done ++ [c]) rest

/-- `for ex in exclude:` — each entry's deletion pass runs over the list left
by the previous one. -/
def applyExcludes : List ExEntry → List Config3 → Except Unit (List Config3)
  | [], cfgs => Except.ok cfgs
  | ex :: rest, cfgs =>
    match excludeScan ex [] cfgs with
    | Except.error e => Except.error e
    | Except.ok cfgs2 => applyExcludes rest cfgs2

/-- Errors raised by the generator: `ValueError` when the matrix lacks a
`parameters` key, and a propagated `KeyError` from an exclude entry naming
an absent parameter.  (The `TypeError` branch for a non-`dict` matrix is
unrepresentable here because `MatrixModel` is already a dict.) -/
inductive GenError where
  | valueError
  | keyError
  deriving DecidableEq, Repr

/-- The configuration matrix as a Python dict: an optional `parameters`
entry (ordered mapping of name to candidate values) and an `exclude` list
(defaulting to `[]` via `matrix.get("exclude", [])`). -/
structure MatrixModel where
  parameters : Option (List (String × List Val))
  exclude : List ExEntry

/-- `configurations.run(matrix)`: check the `parameters` key, build the
cartesian product in declaration order, then run the exclude deletion
passes. -/
def configurationsRun (m : MatrixModel) : Except GenError (List Config3) :=
  match m.parameters with
  | none => Except.error GenError.valueError
  | some params =>
    let cfgs := (cartProd (params.map Prod.snd)).map
      (fun vals => (params.map Prod.fst).zip vals)
    match applyExcludes m.exclude cfgs with
    | Except.error _ => Except.error GenError.keyError
    | Except.ok out => Except.ok out

/-! ## Worker pool result collection (parallel.py, `_Pool.map` and
`TaskManager.run`) -/

/-- `_Pool.map`: every task is put on the shared task queue; workers push
each task's value onto the shared result queue as they finish, and `map`
drains exactly `number_of_tasks` values in arrival order.  `tasks` lists the
values the submitted closures produce, in submission order; `completion`
lists task positions in the order the workers finish them.  No index is
attached to a task or its result, so the drained list is simply the values
in completion order. -/
def poolMap (tasks : List Val) (completion : List Nat) : List Val :=
  completion.filterMap (fun i => tasks.get? i)

/-- A completion order is some permutation of the submitted task positions. -/
def IsCompletionOrder (tasks : List Val) (completion : List Nat) : Prop :=
  completion.Perm (List.range tasks.length)

/-- `TaskManager.run`: returns `pool.map(_task_runner, self._tasks)`
unchanged — no reordering of the collected results. -/
def taskManagerRun (tasks : List Val) (completion : List Nat) : List Val :=
  poolMap tasks completion

/-! ## Orchestrator (memento.py, `Memento.run` and `Memento.run_all`) -/

/-- `_key(func, config)`: `cloudpickle.dumps({"function": func, "args":
[config]})`, modelled as the deterministic pair of the function identity and
the configuration. -/
def runKey (fid : Nat) (c : Config3) : Nat × Config3 :=
  (fid, c)

/-- The cache-reconciliation loop of `Memento.run` (the persistent cache is
abstracted to the set of keys it contains):

```
for config in configs:
    key = _key(self.func, config)
    if not cache.contains(key) or force_run:
        if force_cache:
            raise CacheMiss(config)
        manager.add_task(...)
        ran.append(config)
```

Returns the `ran` list, or the configuration named by the raised
`CacheMiss`. -/
def missLoop (cache : List (Nat × Config3)) (fid : Nat)
    (forceRun forceCache : Bool) : List Config3 → Except Config3 (List Config3)
  | [] => Except.ok []
  | c :: rest =>
    if runKey fid c ∉ cache ∨ forceRun = true then
      if forceCache then Except.error c
      else
        match missLoop cache fid forceRun forceCache rest with
        | Except.error e => Except.error e
        | Except.ok r => Except.ok (c :: r)
    else missLoop cache fid forceRun forceCache rest

/-- Observable side effects of one `Memento.run` invocation: opening the
persistent cache file and submitting a wrapped task to the worker pool
(each submitted task is what later invokes the user function exactly
once). -/
inductive RunEffect where
  | openedCache
  | submittedTask (c : Config3)
  deriving DecidableEq, Repr

/-- Errors of `Memento.run`: a generator error, or `CacheMiss` naming the
offending configuration. -/
inductive RunError where
  | genError (e : GenError)
  | cacheMiss (c : Config3)
  deriving DecidableEq, Repr

/-- The returned value of `Memento.run` (configurations standing in for
their `Result` records, which `run` re-reads from the cache in original
configuration order) together with the effect trace. -/
structure RunOutput where
  results : Option (List Config3)
  effects : List RunEffect
  deriving DecidableEq, Repr

/-- `Memento.run`: generate configurations, return `None` immediately on
`dry_run` (before the cache is opened and before any task exists), otherwise
open the cache, run the reconciliation loop, submit the computed `ran` set
and return the results in configuration order. -/
def mementoRun (fid : Nat) (m : MatrixModel) (cache : List (Nat × Config3))
    (dryRun forceRun forceCache : Bool) : Except RunError RunOutput :=
  match configurationsRun m with
  | Except.error e => Except.error (RunError.genError e)
  | Except.ok configs =>
    if dryRun then Except.ok ⟨none, []⟩
    else
      match missLoop cache fid forceRun forceCache configs with
      | Except.error c => Except.error (RunError.cacheMiss c)
      | Except.ok ran =>
        Except.ok ⟨some configs,
          RunEffect.openedCache :: ran.map RunEffect.submittedTask⟩

/-- A configuration matrix as seen by `Memento.run_all`: its `id` and the
ids listed in its `dependencies`. -/
structure MMatrix where
  id : Nat
  dependencies : List Nat

/-- Edge construction in `run_all`:
`graph_edges.append(tuple([matrix["id"], dependency]))` — an edge from each
matrix to each of its declared dependencies. -/
def graphEdges (ms : List MMatrix) : List (Nat × Nat) :=
  ms.flatMap (fun m => m.dependencies.map (fun d => (m.id, d)))

/-- `order` is a topological order of the directed graph with the given
edges (what `networkx.topological_sort` returns): the nodes are listed
without repetition and every edge's source appears strictly before its
target. -/
def TopoOrderOf (edges : List (Nat × Nat)) (order : List Nat) : Prop :=
  order.Nodup ∧ ∀ e ∈ edges, e.1 ∈ order ∧ e.2 ∈ order ∧
    order.indexOf e.1 < order.indexOf e.2

/-! ## Slurm backend (slurm.py) -/

/-- One row of the `sacct` accounting output: native job id, state, elapsed
time, start time, and the free-text comment carrying the stable internal
id. -/
structure SJob where
  jobId : String
  state : String
  elapsed : String
  start : Nat
  comment : String
  deriving DecidableEq, Repr

/-- Outcome of one iteration of the `while True` polling loop in
`__wait_jobs`: return successfully, raise naming a native job id and its
elapsed time, or sleep for the backoff interval and poll again. -/
inductive WaitOutcome where
  | success
  | raised (jobId : String) (elapsed : String)
  | retry
  deriving DecidableEq, Repr

/-- Bool-valued `needle in haystack` on strings (Python substring test). -/
def strHasSub (haystack needle : String) : Bool :=
  subSearch haystack.data needle.data
where
  seqStartsWith : List Char → List Char → Bool
    | _, [] => true
    | [], _ :: _ => false
    | a :: as, b :: bs => a = b && seqStartsWith as bs
  subSearch : List Char → List Char → Bool
    | [], needle => needle.isEmpty
    | a :: rest, needle => seqStartsWith (a :: rest) needle || subSearch rest needle

/-- The per-id state table of `__wait_jobs`: for each tracked id, the state
of the *first* matching job record in `sacct` order (which is oldest start
time first), or the sentinel when no record matches.  This mirrors the
`for job in jobs: ... break / else:` loop. -/
def stateOf (jobs : List SJob) (id : String) : String :=
  match jobs.find? (fun j => j.comment = id) with
  | some j => j.state
  | none => "MEMENTO_NO_SLURM_JOB_FOUND"

/-- The failure scan of `__wait_jobs`: walk the records newest first
(`jobs[::-1]`), skip ids already seen (so only each id's most recent
instance is classified), and raise on `FAILED`, a state containing
`CANCELLED`, or a state containing `OUT_OF_MEMORY`. -/
def waitScan : List SJob → List String → WaitOutcome
  | [], _ => WaitOutcome.retry
  | j :: rest, seen =>
    if j.comment ∈ seen then waitScan rest seen
    else if j.state = "FAILED" then WaitOutcome.raised j.jobId j.elapsed
    else if strHasSub j.state "CANCELLED" then WaitOutcome.raised j.jobId j.elapsed
    else if strHasSub j.state "OUT_OF_MEMORY" then WaitOutcome.raised j.jobId j.elapsed
    else waitScan rest (j.comment :: seen)

/-- One polling iteration of `__wait_jobs` over the current `sacct` records
(given oldest start time first, as `sacct` returns them): filter to tracked
comments, return successfully when every tracked id's *first* (oldest)
matching record is `COMPLETED`, otherwise run the newest-first failure scan
and, if nothing raises, sleep and retry. -/
def waitStep (ids : List String) (jobs : List SJob) : WaitOutcome :=
  let tracked := jobs.filter (fun j => j.comment ∈ ids)
  if ids.all (fun id => stateOf tracked id = "COMPLETED") then WaitOutcome.success
  else waitScan tracked.reverse []

/-- The most recent record for an id, taking the records oldest first. -/
def latestState (jobs : List SJob) (id : String) : Option String :=
  (jobs.reverse.find? (fun j => j.comment = id)).map SJob.state

/-- A job submitted by `_submit_job`: the stable internal id is stamped into
the scheduler's free-text `comment` field (the scheduler assigns the
transient native id itself on `sbatch`). -/
structure SubmittedJob where
  comment : String
  deriving DecidableEq, Repr

/-- `_submit_job(file, config, internal_id)`: builds the job with
`comment=internal_id`, submits it, and returns `internal_id`. -/
def submitJob (internalId : String) : SubmittedJob × String :=
  (⟨internalId⟩, internalId)

/-- `_run_check(file, data, job_id)`: read the main job's accounting state;
`COMPLETED` is a no-op, `TIMEOUT` resubmits the main job via
`_submit_job(file, data["args"][1], data["id"])` (same stable id), and any
other state does nothing.  Returns the list of submissions performed. -/
def runCheck (state : String) (dataId : String) : List SubmittedJob :=
  if state = "COMPLETED" then []
  else if state = "TIMEOUT" then [(submitJob dataId).1]
  else []

/-! ## Theorems settling the claims -/

/-- C10: for the in-memory cache provider, after `set(key, v)` the call
`contains(key)` returns `True` for every stored value `v` except the boolean
`False`; when the stored value is `False`, `contains(key)` returns `False`
even though `get(key)` succeeds and returns `False`, so `contains` is not
equivalent to "`get` succeeds". -/
theorem memory_contains_false_value :
    (∀ (c : MemCache) (k : PyKey) (v : Val),
        memoryContains (memorySet c k v) k = decide (v ≠ Val.vBool false)) ∧
    (∀ (c : MemCache) (k : PyKey) (v : Val),
        memoryGet (memorySet c k v) k = Except.ok v) := by
  constructor
  · intro c k v
    simp [memoryContains, memorySet, dictGet?_dictSet_self]
  · intro c k v
    simp [memoryGet, memorySet, dictGet?_dictSet_self]

/-- C2: for every underlying function and every cache provider satisfying
the `set`-then-`get` contract, a first `Cache.__call__` on a key absent from
the cache executes the underlying function and returns its value, and a
second call with structurally equal arguments does not execute the function
and is served the same value from the cache. -/
theorem cache_call_memoizes {S : Type} (P : ProviderModel S)
    (hP : P.PreservesSet) (c : CacheFn) (s : S) (args : List Val)
    (habsent : P.get? s (c.makeKey args) = none) :
    (c.call P s args).2.2 = true ∧
    (c.call P s args).1 = c.impl args ∧
    (c.call P (c.call P s args).2.1 args).2.2 = false ∧
    (c.call P (c.call P s args).2.1 args).1 = (c.call P s args).1 := by
  simp [CacheFn.call, habsent, hP s (c.makeKey args) (c.impl args)]

/-- Witness for C2 at the in-memory provider: wrap a constant function,
start from the empty cache, and call twice on the argument list `[1]`. -/
theorem cache_call_memoizes_witness :
    memProvider.PreservesSet ∧
    memProvider.get? ([] : MemCache)
      (CacheFn.makeKey ⟨0, fun _ => Val.vInt 7⟩ [Val.vInt 1]) = none ∧
    (CacheFn.call ⟨0, fun _ => Val.vInt 7⟩ memProvider
      ((CacheFn.call ⟨0, fun _ => Val.vInt 7⟩ memProvider [] [Val.vInt 1]).2.1)
      [Val.vInt 1]).2.2 = false ∧
    (CacheFn.call ⟨0, fun _ => Val.vInt 7⟩ memProvider
      ((CacheFn.call ⟨0, fun _ => Val.vInt 7⟩ memProvider [] [Val.vInt 1]).2.1)
      [Val.vInt 1]).1 =
      (CacheFn.call ⟨0, fun _ => Val.vInt 7⟩ memProvider [] [Val.vInt 1]).1 := by
  have h := cache_call_memoizes memProvider memProvider_preservesSet
    ⟨0, fun _ => Val.vInt 7⟩ [] [Val.vInt 1] rfl
  exact ⟨memProvider_preservesSet, rfl, h.2.2.1, h.2.2.2⟩

/-- C8: `_run_check` reads the main job's accounting state; `COMPLETED`
performs no submission, `TIMEOUT` performs exactly one resubmission whose
comment field carries the same stable id, and every other state performs no
submission. -/
theorem run_check_classification (state dataId : String) :
    (state = "COMPLETED" → runCheck state dataId = []) ∧
    (state = "TIMEOUT" → runCheck state dataId = [SubmittedJob.mk dataId]) ∧
    (state ≠ "COMPLETED" → state ≠ "TIMEOUT" → runCheck state dataId = []) := by
  refine ⟨fun h => ?_, fun h => ?_, fun h1 h2 => ?_⟩
  · simp [runCheck, h]
  · subst h
    simp [runCheck, submitJob]
  · simp [runCheck, h1, h2]

/-- Witness for C8: a `TIMEOUT` main-job state resubmits once with the same
stable id, and a `FAILED` state resubmits nothing. -/
theorem run_check_classification_witness :
    runCheck "TIMEOUT" "stable-id-1" = [SubmittedJob.mk "stable-id-1"] ∧
    runCheck "FAILED" "stable-id-1" = [] := by
  refine ⟨(run_check_classification "TIMEOUT" "stable-id-1").2.1 rfl, ?_⟩
  exact (run_check_classification "FAILED" "stable-id-1").2.2
    (by decide) (by decide)

/-- C9: whenever configuration generation succeeds, `Memento.run` with
`dry_run=True` returns `None` (no result list) with an empty effect trace:
the cache is never opened and no task is submitted to the worker pool, so
the user function is executed zero times. -/
theorem dry_run_returns_none_no_effects (fid : Nat) (m : MatrixModel)
    (cache : List (Nat × Config3)) (forceRun forceCache : Bool)
    (hgen : ∃ configs, configurationsRun m = Except.ok configs) :
    mementoRun fid m cache true forceRun forceCache =
      Except.ok ⟨none, []⟩ := by
  obtain ⟨configs, h⟩ := hgen
  simp [mementoRun, h]

/-- Witness for C9 on a one-parameter matrix. -/
theorem dry_run_returns_none_no_effects_witness :
    (∃ configs, configurationsRun ⟨some [("p1", [Val.vInt 1])], []⟩ =
        Except.ok configs) ∧
    mementoRun 0 ⟨some [("p1", [Val.vInt 1])], []⟩ [] true false false =
      Except.ok ⟨none, []⟩ := by
  refine ⟨⟨[[("p1", Val.vInt 1)]], rfl⟩, ?_⟩
  exact dry_run_returns_none_no_effects 0 _ [] false false
    ⟨[[("p1", Val.vInt 1)]], rfl⟩

/-- C1 fails on the code: `_Pool.map` drains the shared result queue in
completion order and `TaskManager.run` returns that list unchanged, so with
two submitted tasks producing `10` and `20` and the second task finishing
first, `run()` returns `[20, 10]`, not the submission-ordered `[10, 20]`. -/
theorem pool_map_returns_completion_order :
    IsCompletionOrder [Val.vInt 10, Val.vInt 20] [1, 0] ∧
    taskManagerRun [Val.vInt 10, Val.vInt 20] [1, 0] =
      [Val.vInt 20, Val.vInt 10] ∧
    taskManagerRun [Val.vInt 10, Val.vInt 20] [1, 0] ≠
      [Val.vInt 10, Val.vInt 20] := by
  refine ⟨?_, rfl, by decide⟩
  unfold IsCompletionOrder
  decide

/-- The matrix of C3's failing input: parameters
`{p1: [1, 2, 3], p2: [4]}` with exclude `[{p2: 4}]`.  All three generated
configurations match the exclude entry. -/
def c3Matrix : MatrixModel :=
  ⟨some [("p1", [Val.vInt 1, Val.vInt 2, Val.vInt 3]), ("p2", [Val.vInt 4])],
   [[("p2", Val.vInt 4)]]⟩

/-- C3 fails on the code: every one of the three generated configurations
matches the exclude entry `{p2: 4}`, yet the `del`-inside-`enumerate`
deletion pass leaves the middle configuration `{p1: 2, p2: 4}` in the output
because deleting its left neighbour shifts it past the iterator. -/
theorem exclude_del_skips_neighbor :
    (∀ c ∈ (cartProd [[Val.vInt 1, Val.vInt 2, Val.vInt 3], [Val.vInt 4]]).map
        (fun vals => (["p1", "p2"]).zip vals),
      exMatches [("p2", Val.vInt 4)] c = Except.ok true) ∧
    configurationsRun c3Matrix =
      Except.ok [[("p1", Val.vInt 2), ("p2", Val.vInt 4)]] := by
  constructor
  · intro c hc
    simp [cartProd] at hc
    rcases hc with h | h | h <;> subst h <;> rfl
  · rfl

/-- The two-matrix DAG of `run_all`'s own test: matrix 2 depends on
matrix 1. -/
def runAllMatrices : List MMatrix := [⟨2, [1]⟩, ⟨1, []⟩]

/-- C4 fails on the code: `run_all` adds an edge from each matrix to each of
its dependencies, so for the two-matrix DAG in which matrix 2 depends on
matrix 1, every topological order of the constructed graph places matrix 2
strictly before matrix 1 — the dependency runs after its dependent, never
before it. -/
theorem run_all_topo_order_reversed (order : List Nat)
    (h : TopoOrderOf (graphEdges runAllMatrices) order) :
    order.indexOf 2 < order.indexOf 1 := by
  have hmem : ((2 : Nat), (1 : Nat)) ∈ graphEdges runAllMatrices := by
    simp [graphEdges, runAllMatrices]
  exact (h.2 _ hmem).2.2

/-- Witness for C4: `[2, 1]` is a topological order of the constructed
graph, and it indeed lists matrix 2 first. -/
theorem run_all_topo_order_reversed_witness :
    TopoOrderOf (graphEdges runAllMatrices) [2, 1] ∧
    List.indexOf 2 [2, 1] < List.indexOf 1 [2, 1] := by
  have hT : TopoOrderOf (graphEdges runAllMatrices) [2, 1] := by
    refine ⟨by decide, ?_⟩
    intro e he
    simp [graphEdges, runAllMatrices] at he
    subst he
    refine ⟨by decide, by decide, by decide⟩
  exact ⟨hT, run_all_topo_order_reversed [2, 1] hT⟩

/-- The configuration of C5's counterexample. -/
def c5Config : Config3 := [("p1", Val.vInt 1)]

/-- C5 fails on the code: over a configuration set that is fully covered by
the cache, `run` with both `force_cache` and `force_run` set still raises
`CacheMiss`, because the loop treats `force_run` as a cache miss before the
`force_cache` check. -/
theorem force_cache_raises_on_cached_set :
    runKey 0 c5Config ∈ [runKey 0 c5Config] ∧
    missLoop [runKey 0 c5Config] 0 true true [c5Config] =
      Except.error c5Config := by
  exact ⟨List.mem_singleton.mpr rfl, rfl⟩

/-- C5 amended: `run` raises `CacheMiss` if and only if `force_cache` is set
and at least one configuration either has its cache key absent from the
cache or `force_run` is set. -/
theorem missLoop_raises_iff (cache : List (Nat × Config3)) (fid : Nat)
    (forceRun forceCache : Bool) (configs : List Config3) :
    (∃ c, missLoop cache fid forceRun forceCache configs = Except.error c) ↔
    (forceCache = true ∧
      ∃ c ∈ configs, (runKey fid c ∉ cache ∨ forceRun = true)) := by
  induction configs with
  | nil => simp [missLoop]
  | cons c rest ih =>
    simp only [missLoop]
    by_cases hq : runKey fid c ∉ cache ∨ forceRun = true
    · rw [if_pos hq]
      by_cases hfc : forceCache = true
      · subst hfc
        rw [if_pos rfl]
        constructor
        · intro _
          exact ⟨rfl, c, List.mem_cons_self c rest, hq⟩
        · intro _
          exact ⟨c, rfl⟩
      · have hfc' : forceCache = false := by
          cases forceCache
          · rfl
          · exact absurd rfl hfc
        subst hfc'
        rw [if_neg Bool.false_ne_true]
        rcases h' : missLoop cache fid forceRun false rest with e | r
        · exact absurd (ih.mp ⟨e, h'⟩).1 Bool.false_ne_true
        · constructor
          · rintro ⟨x, hx⟩
            exact Except.noConfusion hx
          · rintro ⟨hft, -⟩
            exact absurd hft Bool.false_ne_true
    · rw [if_neg hq, ih]
      constructor
      · rintro ⟨hfc, c', hc', hcond⟩
        exact ⟨hfc, c', List.mem_cons_of_mem c hc', hcond⟩
      · rintro ⟨hfc, c', hc', hcond⟩
        rcases List.mem_cons.mp hc' with rfl | hmem
        · exact absurd hcond hq
        · exact ⟨hfc, c', hmem, hcond⟩

/-- C6's failing input: the accounting records for stable id `a`, oldest
start first — a first main-job instance that hit `TIMEOUT`, then the
resubmitted instance that ran to `COMPLETED`. -/
def c6Jobs : List SJob :=
  [⟨"101", "TIMEOUT", "00:10:00", 100, "a"⟩,
   ⟨"102", "COMPLETED", "00:05:00", 200, "a"⟩]

/-- C6 fails on the code: with stable id `a` tracked and its most recent
instance (by start time) in `COMPLETED` state, `__wait_jobs`'s polling
iteration neither returns successfully nor raises — the success test reads
the *first* matching record in oldest-first order (the timed-out original
instance), and the newest-first failure scan finds nothing to raise on, so
the waiter sleeps and retries forever. -/
theorem wait_ignores_latest_instance :
    List.Chain' (fun x y => x.start ≤ y.start) c6Jobs ∧
    latestState c6Jobs "a" = some "COMPLETED" ∧
    waitStep ["a"] c6Jobs = WaitOutcome.retry := by
  refine ⟨?_, rfl, rfl⟩
  simp [c6Jobs]

/-- C7's counterexample matrix: a parameter named `settings`, colliding with
the reserved name. -/
def c7Matrix : MatrixModel := ⟨some [("settings", [Val.vInt 1])], []⟩

/-- C7 fails on the code: generation on a matrix whose parameter name
collides with the reserved name `settings` does not fail at all — it
returns the configuration set containing that parameter. -/
theorem reserved_name_not_rejected :
    configurationsRun c7Matrix =
      Except.ok [[("settings", Val.vInt 1)]] := rfl

/-- C7 amended: generation validates only the presence of the `parameters`
key (raising `ValueError` when it is missing); a matrix with no exclude list
always generates its cartesian-product configuration set, whatever the
parameter names — reserved names are not rejected. -/
theorem generation_checks_only_parameters_key :
    (∀ params : List (String × List Val),
        configurationsRun ⟨some params, []⟩ =
          Except.ok ((cartProd (params.map Prod.snd)).map
            (fun vals => (params.map Prod.fst).zip vals))) ∧
    (∀ ex : List ExEntry,
        configurationsRun ⟨none, ex⟩ = Except.error GenError.valueError) :=
  ⟨fun _ => rfl, fun _ => rfl⟩

end Memento
